import Mathlib

/-!
Shallow embedding of `monitor_rdv.py` (RDV préfecture slot monitor).

Text is modelled as a list of Unicode codepoints (`List Nat`), matching
Python `str` semantics for the fragments the script uses.  The two regex
heuristics `looks_like_no_availability` and `looks_like_timeslot`, the
classification expression of `main`, the edge-triggered notification
state machine on `last_status`, the Telegram notifier and the screenshot
naming of `capture` are embedded below, each with the source line it
comes from.
-/

namespace RDV

/-- Codepoints of a string literal.  The Python source manipulates `str`
values; they are modelled as lists of Unicode codepoints. -/
def codes (s : String) : List Nat := s.data.map Char.toNat

/-- Python regex class `\s` on `str` (whitespace), as used by
`re.sub(r"\s+", " ", ...)` at lines 66 and 75 of the source.  Covers the
ASCII whitespace, the C1 controls Python counts as space, NBSP and the
Unicode space separators. -/
def isPySpace (n : Nat) : Bool :=
  (9 ≤ n && n ≤ 13) || (28 ≤ n && n ≤ 32) || n == 133 || n == 160 || n == 5760 ||
  (8192 ≤ n && n ≤ 8202) || n == 8232 || n == 8233 || n == 8239 || n == 8287 || n == 12288

/-- Python regex class `\d` (decimal digit), restricted to the ASCII
digits `0`-`9`; the non-ASCII Unicode decimal digits are out of scope of
this embedding. -/
def isPyDigit (n : Nat) : Bool := 48 ≤ n && n ≤ 57

/-- Python regex class `\w` (word character), used implicitly by the `\b`
word boundaries of `looks_like_timeslot`: ASCII alphanumerics, underscore
and the Latin-1 letters (ª, µ, º and the accented range without × and ÷);
word characters from other Unicode blocks are out of scope. -/
def isWordChar (n : Nat) : Bool :=
  isPyDigit n || (65 ≤ n && n ≤ 90) || n == 95 || (97 ≤ n && n ≤ 122) ||
  n == 170 || n == 181 || n == 186 ||
  (192 ≤ n && n ≤ 255 && n != 215 && n != 247)

/-- Python `str.lower()` on one codepoint, for the Basic Latin and
Latin-1 ranges the script's patterns can meet: `A`-`Z` and the accented
uppercase range `À`-`Þ` (without `×`) map down by 32, everything else is
fixed.  (Lowercasing outside Latin-1 never affects the script's
patterns, which only contain `a`-`z` and `é`/`è`.) -/
def pyLower (n : Nat) : Nat :=
  if 65 ≤ n ∧ n ≤ 90 then n + 32
  else if 192 ≤ n ∧ n ≤ 222 ∧ n ≠ 215 then n + 32
  else n

/-- Python `str.upper()` on one codepoint over the same Latin ranges
(`a`-`z` and `à`-`þ` without `÷` map up by 32); the two Latin-1
codepoints with irregular uppercase (`ß`, `ÿ`) are left fixed. -/
def pyUpper (n : Nat) : Nat :=
  if 97 ≤ n ∧ n ≤ 122 then n - 32
  else if 224 ≤ n ∧ n ≤ 254 ∧ n ≠ 247 then n - 32
  else n

/-- Worker for `re.sub(r"\s+", " ", ...)`: the flag records whether we
are inside a whitespace run whose single replacement space was already
emitted. -/
def collapseAux : Bool → List Nat → List Nat
  | _, [] => []
  | true, c :: rest =>
    if isPySpace c then collapseAux true rest else c :: collapseAux false rest
  | false, c :: rest =>
    if isPySpace c then 32 :: collapseAux true rest else c :: collapseAux false rest

/-- Python `re.sub(r"\s+", " ", s)`: every maximal run of whitespace is
replaced by one space. -/
def collapseWs (s : List Nat) : List Nat := collapseAux false s

/-- The normalised text `text_low = re.sub(r"\s+", " ", text.lower())`
computed at lines 66 and 75 of the source. -/
def normalizeText (s : List Nat) : List Nat := collapseWs (s.map pyLower)

/-- Atoms of the regular expressions the script uses: literal codepoint,
character class, one digit `\d`, one optional digit `\d?` (the bounded
repetitions of the source, `\d{1,2}` and `\d{2}`, are spelled `\d\d?` and
`\d\d`, which match the same strings), `\s+`, an optional single
character (`(?:e)?`, `s?`), and the word boundary `\b`. -/
inductive Atom : Type
  | lit (c : Nat)
  | cls (cs : List Nat)
  | dig
  | optDig
  | wsPlus
  | optChar (c : Nat)
  | wb
deriving DecidableEq, Repr

/-- All ways for `\s+` to consume a non-empty prefix of whitespace. -/
def wsPlusSuffixes : Option Nat → List Nat → List (Option Nat × List Nat)
  | _, [] => []
  | _, d :: rest =>
    if isPySpace d then (some d, rest) :: wsPlusSuffixes (some d) rest else []

/-- The `\b` zero-width test: the word-character status of the preceding
character (none at the start of the string) differs from that of the
next character (none at the end). -/
def wordBoundary (prev : Option Nat) (s : List Nat) : Bool :=
  (match prev with | some c => isWordChar c | none => false) !=
  (match s with | d :: _ => isWordChar d | [] => false)

/-- All ways one atom can consume a prefix of `s`, given the preceding
character `prev`. -/
def matchOne : Atom → Option Nat → List Nat → List (Option Nat × List Nat)
  | .lit c, _, d :: rest => if d = c then [(some d, rest)] else []
  | .lit _, _, [] => []
  | .cls cs, _, d :: rest => if cs.contains d then [(some d, rest)] else []
  | .cls _, _, [] => []
  | .dig, _, d :: rest => if isPyDigit d then [(some d, rest)] else []
  | .dig, _, [] => []
  | .optDig, prev, s =>
    (prev, s) ::
      (match s with
       | d :: rest => if isPyDigit d then [(some d, rest)] else []
       | [] => [])
  | .wsPlus, prev, s => wsPlusSuffixes prev s
  | .optChar c, prev, s =>
    (prev, s) ::
      (match s with
       | d :: rest => if d = c then [(some d, rest)] else []
       | [] => [])
  | .wb, prev, s => if wordBoundary prev s then [(prev, s)] else []

/-- Does the atom sequence match some prefix of `s` (anchored match at
the current position, `prev` being the character just before it)? -/
def matchAtoms : List Atom → Option Nat → List Nat → Bool
  | [], _, _ => true
  | a :: ps, prev, s => (matchOne a prev s).any fun pr => matchAtoms ps pr.1 pr.2

/-- Python `re.search(p, s) is not None`: the pattern matches at some
position of `s`. -/
def reSearch (p : List Atom) : Option Nat → List Nat → Bool
  | prev, [] => matchAtoms p prev []
  | prev, d :: rest => matchAtoms p prev (d :: rest) || reSearch p (some d) rest

/-- A run of literal atoms, for spelling the patterns the way the source
spells them. -/
def lits (s : String) : List Atom := s.data.map fun c => Atom.lit c.toNat

/-- Source pattern `aucun(?:e)?\s+cr[ée]neau\s+disponible` (line 60). -/
def patAucunCreneau : List Atom :=
  lits "aucun" ++ [Atom.optChar 101, Atom.wsPlus] ++
  lits "cr" ++ [Atom.cls (codes "ée")] ++ lits "neau" ++ [Atom.wsPlus] ++ lits "disponible"

/-- Source pattern `pas\s+de\s+cr[ée]neau` (line 61). -/
def patPasDeCreneau : List Atom :=
  lits "pas" ++ [Atom.wsPlus] ++ lits "de" ++ [Atom.wsPlus] ++
  lits "cr" ++ [Atom.cls (codes "ée")] ++ lits "neau"

/-- Source pattern `plus\s+de\s+plage\s+horaire` (line 62). -/
def patPlusDePlage : List Atom :=
  lits "plus" ++ [Atom.wsPlus] ++ lits "de" ++ [Atom.wsPlus] ++
  lits "plage" ++ [Atom.wsPlus] ++ lits "horaire"

/-- Source pattern `plus\s+de\s+disponibilit[ée]s?` (line 63). -/
def patPlusDeDispo : List Atom :=
  lits "plus" ++ [Atom.wsPlus] ++ lits "de" ++ [Atom.wsPlus] ++
  lits "disponibilit" ++ [Atom.cls (codes "ée"), Atom.optChar 115]

/-- Source pattern `aucune\s+disponibilit[ée]` (line 64). -/
def patAucuneDispo : List Atom :=
  lits "aucune" ++ [Atom.wsPlus] ++ lits "disponibilit" ++ [Atom.cls (codes "ée")]

/-- Source pattern `\b\d{1,2}[:hH]\d{2}\b` (line 72), e.g. 09:15 or
14h30; `\d{1,2}` is spelled `\d\d?` and `\d{2}` is `\d\d`. -/
def patHourColon : List Atom :=
  [Atom.wb, Atom.dig, Atom.optDig, Atom.cls (codes ":hH"), Atom.dig, Atom.dig, Atom.wb]

/-- Source pattern `\b\d{1,2}h\b` (line 73), e.g. 9h or 14h. -/
def patHourH : List Atom := [Atom.wb, Atom.dig, Atom.optDig, Atom.lit 104, Atom.wb]

/-- `looks_like_no_availability` (source lines 58-67): normalise the
text, then search for any of the five no-availability patterns. -/
def looks_like_no_availability (text : List Nat) : Bool :=
  [patAucunCreneau, patPasDeCreneau, patPlusDePlage, patPlusDeDispo,
   patAucuneDispo].any fun p => reSearch p none (normalizeText text)

/-- `looks_like_timeslot` (source lines 70-76): normalise the text, then
search for either time-of-day pattern. -/
def looks_like_timeslot (text : List Nat) : Bool :=
  [patHourColon, patHourH].any fun p => reSearch p none (normalizeText text)

/-- The two classification labels the loop computes at line 139. -/
inductive Status : Type
  | AVAILABLE
  | NONE
deriving DecidableEq, Repr

/-- `has_slots = looks_like_timeslot(content_text) and not
looks_like_no_availability(content_text)` (source line 138). -/
def has_slots (text : List Nat) : Bool :=
  looks_like_timeslot text && !looks_like_no_availability text

/-- `status = "AVAILABLE" if has_slots else "NONE"` (source line 139). -/
def classify (text : List Nat) : Status :=
  if has_slots text then Status.AVAILABLE else Status.NONE

/-- One step of the edge-trigger logic of the monitoring loop (source
lines 141-151): `last_status` starts as `None` (line 129, modelled by
`Option.none`); when the fresh `status` differs from it the notification
branch runs and `last_status` is updated.  Returns the new stored label
and whether a notification was dispatched. -/
def stepStatus (last : Option Status) (status : Status) : Option Status × Bool :=
  if some status ≠ last then (some status, true) else (last, false)

/-- Number of notification dispatches produced by feeding a sequence of
freshly computed labels through the loop's edge-trigger logic, starting
from the stored label `last`. -/
def countDispatches : Option Status → List Status → Nat
  | _, [] => 0
  | last, s :: rest =>
    (if (stepStatus last s).2 then 1 else 0) + countDispatches (stepStatus last s).1 rest

/-- The per-cycle page-text fetch (source lines 131-136): `none` models
the `PlaywrightTimeoutError` of `page.inner_text`, in which case
`content_text` is set to the empty string. -/
def fetch_text : Option (List Nat) → List Nat
  | some t => t
  | none => []

/-- One full monitoring cycle (source lines 131-151): obtain the text
snapshot (empty on timeout), classify it, and run the edge-trigger step.
Total, so every fetch outcome yields a successor state and the loop
continues. -/
def cycle (last : Option Status) (fetch : Option (List Nat)) : Option Status × Bool :=
  stepStatus last (classify (fetch_text fetch))

/-- Python truthiness test `not x` on an optional string environment
variable: unset (`None`) and the empty string are both falsy. -/
def strFalsy : Option String → Bool
  | none => true
  | some s => s = ""

/-- `send_telegram` (source lines 45-55).  The HTTP call is modelled by
its outcome `net`: `Except.ok code` is a completed `requests.post` with
that status code, `Except.error e` an exception raised during the call.
Missing or empty credentials short-circuit to `None`; an exception is
caught, logged and also yields `None`; otherwise the status code is
returned.  The function is total: no outcome raises out of it. -/
def send_telegram (token chatId : Option String) (net : Except String Nat) : Option Nat :=
  if strFalsy token || strFalsy chatId then none
  else
    match net with
    | Except.ok code => some code
    | Except.error _ => none

/-- The timestamp components produced by `datetime.now()`; a real clock
always yields `month < 100`, … , which the format theorems assume. -/
structure PyDateTime : Type where
  year : Nat
  month : Nat
  day : Nat
  hour : Nat
  minute : Nat
  second : Nat
deriving DecidableEq, Repr

/-- strftime zero-padded two-digit field (`%m`, `%d`, `%H`, `%M`, `%S`),
for component values below 100. -/
def pad2 (n : Nat) : List Char := [Nat.digitChar (n / 10), Nat.digitChar (n % 10)]

/-- strftime zero-padded four-digit year (`%Y`), for years below 10000. -/
def pad4 (n : Nat) : List Char :=
  [Nat.digitChar (n / 1000), Nat.digitChar (n / 100 % 10),
   Nat.digitChar (n / 10 % 10), Nat.digitChar (n % 10)]

/-- `datetime.now().strftime('%Y%m%d_%H%M%S')` (source line 97). -/
def stamp (t : PyDateTime) : List Char :=
  pad4 t.year ++ pad2 t.month ++ pad2 t.day ++ ['_'] ++
  pad2 t.hour ++ pad2 t.minute ++ pad2 t.second

/-- The screenshot path built by `capture` (source line 97):
`SCREENSHOT_DIR / f"{stamp}_{label}.png"`. -/
def capturePath (dir : List Char) (t : PyDateTime) (label : List Char) : List Char :=
  dir ++ ['/'] ++ stamp t ++ ['_'] ++ label ++ ".png".data

/-- The observable side effects a notification branch performs, in
order. -/
inductive Effect : Type
  | console (msg : String)
  | beep
  | screenshot (path : List Char)
  | telegram (result : Option Nat)
deriving DecidableEq, Repr

/-- The effect sequence of the `has_slots` notification branch (source
lines 142-147): console line, beep, screenshot tagged `slots_detected`,
then the Telegram send.  The screenshot path is computed before the send
runs, so it does not depend on `net`. -/
def availEffects (dir : List Char) (t : PyDateTime) (token chatId : Option String)
    (net : Except String Nat) : List Effect :=
  [Effect.console "⚠️ RDV DETECTADO: Parece que hay horarios disponibles. ¡Corre a reservar!",
   Effect.beep,
   Effect.screenshot (capturePath dir t "slots_detected".data),
   Effect.telegram (send_telegram token chatId net)]

/-- The effect sequence of the other notification branch (source lines
148-150): console line and a screenshot tagged `none`. -/
def noneEffects (dir : List Char) (t : PyDateTime) : List Effect :=
  [Effect.console "⏳ Aún no hay disponibilidad.",
   Effect.screenshot (capturePath dir t "none".data)]

/-- The effects dispatched on a transition into the given label (source
lines 141-151). -/
def notifyEffects (status : Status) (dir : List Char) (t : PyDateTime)
    (token chatId : Option String) (net : Except String Nat) : List Effect :=
  match status with
  | Status.AVAILABLE => availEffects dir t token chatId net
  | Status.NONE => noneEffects dir t

/-! ### Helper lemmas -/

lemma isPySpace_eq_false {n : Nat} (h : (33 ≤ n ∧ n ≤ 132) ∨ (161 ≤ n ∧ n ≤ 5759)) :
    isPySpace n = false := by
  simp [isPySpace]
  omega

lemma pyLower_fix {n : Nat} (h1 : n ≤ 64 ∨ 91 ≤ n) (h2 : n ≤ 191) : pyLower n = n := by
  unfold pyLower
  split_ifs <;> omega

lemma isWordChar_digit {n : Nat} (h : 48 ≤ n ∧ n ≤ 57) : isWordChar n = true := by
  simp [isWordChar, isPyDigit]
  omega

lemma pyLower_pyUpper (n : Nat) : pyLower (pyUpper n) = pyLower n := by
  unfold pyLower pyUpper
  split_ifs <;> omega

lemma pyLower_pyLower (n : Nat) : pyLower (pyLower n) = pyLower n := by
  unfold pyLower
  split_ifs <;> omega

lemma isPySpace_pyLower (n : Nat) : isPySpace (pyLower n) = isPySpace n := by
  unfold pyLower
  split_ifs with h1 h2
  · rw [isPySpace_eq_false (by omega), isPySpace_eq_false (by omega)]
  · rw [isPySpace_eq_false (by omega), isPySpace_eq_false (by omega)]
  · rfl

lemma map_pyLower_collapseAux (b : Bool) (l : List Nat) :
    (collapseAux b l).map pyLower = collapseAux b (l.map pyLower) := by
  have h32 : pyLower 32 = 32 := by decide
  induction l generalizing b with
  | nil => cases b <;> rfl
  | cons c rest ih =>
    cases hc : isPySpace c with
    | true =>
      cases b <;>
        simp [collapseAux, isPySpace_pyLower, hc, ih true, h32]
    | false =>
      cases b <;>
        simp [collapseAux, isPySpace_pyLower, hc, ih false]

lemma collapseAux_idem (l : List Nat) :
    ∀ b, collapseAux b (collapseAux b l) = collapseAux b l := by
  have h32 : isPySpace 32 = true := by decide
  induction l with
  | nil => intro b; cases b <;> rfl
  | cons c rest ih =>
    intro b
    cases hc : isPySpace c with
    | true =>
      cases b <;> simp [collapseAux, hc, h32, ih true]
    | false =>
      cases b <;> simp [collapseAux, hc, ih false]

lemma map_pyLower_pyUpper (l : List Nat) : (l.map pyUpper).map pyLower = l.map pyLower := by
  induction l with
  | nil => rfl
  | cons c rest ih => simp [pyLower_pyUpper, ih]

lemma map_pyLower_idem (l : List Nat) : (l.map pyLower).map pyLower = l.map pyLower := by
  induction l with
  | nil => rfl
  | cons c rest ih => simp [pyLower_pyLower, ih]

lemma classify_congr {a b : List Nat} (h : normalizeText a = normalizeText b) :
    classify a = classify b := by
  simp [classify, has_slots, looks_like_timeslot, looks_like_no_availability, h]

lemma normalizeText_pyUpper (l : List Nat) : normalizeText (l.map pyUpper) = normalizeText l := by
  unfold normalizeText collapseWs
  rw [map_pyLower_pyUpper]

lemma normalizeText_pyLower (l : List Nat) : normalizeText (l.map pyLower) = normalizeText l := by
  unfold normalizeText collapseWs
  rw [map_pyLower_idem]

lemma normalizeText_collapseWs (l : List Nat) :
    normalizeText (collapseWs l) = normalizeText l := by
  simp only [normalizeText, collapseWs, ← map_pyLower_collapseAux, collapseAux_idem]

lemma isDigit_digitChar {k : Nat} (h : k < 10) : (Nat.digitChar k).isDigit = true := by
  interval_cases k <;> decide

lemma reSearch_lit_head_false {c : Nat} (ps : List Atom) :
    ∀ (prev : Option Nat) (s : List Nat), (∀ x ∈ s, x ≠ c) →
      reSearch (Atom.lit c :: ps) prev s = false := by
  intro prev s
  induction s generalizing prev with
  | nil =>
    intro _
    simp [reSearch, matchAtoms, matchOne]
  | cons d rest ih =>
    intro h
    have hd : d ≠ c := h d (List.mem_cons_self d rest)
    simp only [reSearch, matchAtoms, matchOne, if_neg hd, List.any_nil, Bool.false_or]
    exact ih (some d) fun x hx => h x (List.mem_cons_of_mem d hx)

lemma noAvail_on_letterless {s : List Nat}
    (hnorm : normalizeText s = s) (h : ∀ x ∈ s, x ≠ 97 ∧ x ≠ 112) :
    looks_like_no_availability s = false := by
  unfold looks_like_no_availability
  rw [hnorm]
  obtain ⟨p1, e1⟩ : ∃ ps, patAucunCreneau = Atom.lit 97 :: ps := ⟨_, rfl⟩
  obtain ⟨p2, e2⟩ : ∃ ps, patPasDeCreneau = Atom.lit 112 :: ps := ⟨_, rfl⟩
  obtain ⟨p3, e3⟩ : ∃ ps, patPlusDePlage = Atom.lit 112 :: ps := ⟨_, rfl⟩
  obtain ⟨p4, e4⟩ : ∃ ps, patPlusDeDispo = Atom.lit 112 :: ps := ⟨_, rfl⟩
  obtain ⟨p5, e5⟩ : ∃ ps, patAucuneDispo = Atom.lit 97 :: ps := ⟨_, rfl⟩
  have h97 : ∀ x ∈ s, x ≠ 97 := fun x hx => (h x hx).1
  have h112 : ∀ x ∈ s, x ≠ 112 := fun x hx => (h x hx).2
  simp [e1, e2, e3, e4, e5,
    reSearch_lit_head_false p1 none s h97,
    reSearch_lit_head_false p2 none s h112,
    reSearch_lit_head_false p3 none s h112,
    reSearch_lit_head_false p4 none s h112,
    reSearch_lit_head_false p5 none s h97]

/-! ### Claim theorems -/

/-- Claim C1: in the monitoring loop a notification is dispatched exactly
when the freshly computed label differs from the stored one, the stored
label starts distinct from both labels, and the sequence NONE, NONE,
AVAILABLE, AVAILABLE, NONE produces exactly 3 dispatches. -/
theorem c1_edge_triggered_dispatch :
    (∀ (last : Option Status) (s : Status), (stepStatus last s).2 = true ↔ some s ≠ last) ∧
    (∀ s : Status, (none : Option Status) ≠ some s) ∧
    countDispatches none
      [Status.NONE, Status.NONE, Status.AVAILABLE, Status.AVAILABLE, Status.NONE] = 3 := by
  refine ⟨?_, ?_, ?_⟩
  · intro last s
    unfold stepStatus
    split_ifs with h <;> simp [h]
  · intro s
    simp
  · decide

/-- Claim C2, evaluated on the code: the text "Plus de créneau
disponible. Prochain rendez-vous: 09:00" matches none of the five
no-availability patterns (the phrasing "plus de créneau" is not among
them), so the time token 09:00 wins and the classification is AVAILABLE,
not the NONE the specification requires. -/
theorem c2_exclusion_phrase_not_matched :
    looks_like_no_availability
      (codes "Plus de créneau disponible. Prochain rendez-vous: 09:00") = false ∧
    looks_like_timeslot
      (codes "Plus de créneau disponible. Prochain rendez-vous: 09:00") = true ∧
    classify
      (codes "Plus de créneau disponible. Prochain rendez-vous: 09:00") = Status.AVAILABLE :=
  ⟨by decide, by decide, by decide⟩

/-- Claim C3: any text matching a supported no-availability phrase
classifies NONE, whether or not a time pattern also matches. -/
theorem c3_no_availability_forces_none :
    ∀ text : List Nat, looks_like_no_availability text = true → classify text = Status.NONE := by
  intro text h
  simp [classify, has_slots, h]

/-- Claim C3 witness: a no-availability text that also carries a time
token still classifies NONE. -/
theorem c3_no_availability_forces_none_witness :
    looks_like_no_availability (codes "Aucun créneau disponible pour le moment 10:30") = true ∧
    classify (codes "Aucun créneau disponible pour le moment 10:30") = Status.NONE :=
  ⟨by decide, c3_no_availability_forces_none _ (by decide)⟩

/-- Claim C4: any text with a time-of-day token and no no-availability
phrase classifies AVAILABLE, in particular the spec's scenario text. -/
theorem c4_timeslot_means_available :
    (∀ text : List Nat, looks_like_timeslot text = true →
        looks_like_no_availability text = false → classify text = Status.AVAILABLE) ∧
    classify (codes "Horaires disponibles: 09:15, 10:30, 14h00") = Status.AVAILABLE := by
  constructor
  · intro text h1 h2
    simp [classify, has_slots, h1, h2]
  · decide

/-- Claim C4 witness. -/
theorem c4_timeslot_means_available_witness :
    classify (codes "Horaires: 9h30") = Status.AVAILABLE :=
  c4_timeslot_means_available.1 _ (by decide) (by decide)

/-- Claim C5: if neither pattern family matches, the classification is
NONE; in particular the empty string classifies NONE. -/
theorem c5_default_is_none :
    (∀ text : List Nat, looks_like_timeslot text = false →
        looks_like_no_availability text = false → classify text = Status.NONE) ∧
    classify (codes "") = Status.NONE := by
  constructor
  · intro text h1 h2
    simp [classify, has_slots, h1]
  · decide

/-- Claim C5 witness. -/
theorem c5_default_is_none_witness :
    classify (codes "bonjour") = Status.NONE :=
  c5_default_is_none.1 _ (by decide) (by decide)

/-- Claim C6: classification is invariant under upper/lower case change
and under collapsing whitespace runs, and the spec's two concrete texts
classify identically. -/
theorem c6_case_whitespace_invariance :
    (∀ text : List Nat,
        classify (text.map pyUpper) = classify text ∧
        classify (text.map pyLower) = classify text ∧
        classify (collapseWs text) = classify text) ∧
    classify (codes "NO  CRENEAU   DISPONIBLE") = classify (codes "no creneau disponible") := by
  constructor
  · intro text
    exact ⟨classify_congr (normalizeText_pyUpper text),
           classify_congr (normalizeText_pyLower text),
           classify_congr (normalizeText_collapseWs text)⟩
  · decide

/-- Claim C7: a fetch timeout yields the empty-string snapshot, the cycle
classifies it (to NONE) instead of raising, and the loop's edge-trigger
step still runs. -/
theorem c7_timeout_is_empty_snapshot :
    ∀ last : Option Status,
      cycle last none = cycle last (some (codes "")) ∧
      (cycle last none).1 = some Status.NONE ∧
      ((cycle last none).2 = true ↔ last ≠ some Status.NONE) := by
  have hc : classify ([] : List Nat) = Status.NONE := by decide
  intro last
  refine ⟨rfl, ?_, ?_⟩ <;>
    cases last with
    | none => simp [cycle, fetch_text, hc, stepStatus]
    | some s => cases s <;> simp [cycle, fetch_text, hc, stepStatus]

/-- Claim C8: a failed send (exception during the HTTP call, or a missing
credential) yields `None` instead of raising, and the screenshot effect
of the AVAILABLE notification sits before the Telegram send and does not
depend on the send outcome. -/
theorem c8_send_failure_contained :
    ∀ (token chatId : Option String) (err : String) (dir : List Char) (t : PyDateTime)
      (net : Except String Nat),
      send_telegram token chatId (Except.error err) = none ∧
      (token = none ∨ chatId = none → send_telegram token chatId net = none) ∧
      (availEffects dir t token chatId net)[2]? =
        some (Effect.screenshot (capturePath dir t "slots_detected".data)) ∧
      (availEffects dir t token chatId net)[3]? =
        some (Effect.telegram (send_telegram token chatId net)) := by
  intro token chatId err dir t net
  refine ⟨?_, ?_, rfl, rfl⟩
  · unfold send_telegram
    split_ifs <;> rfl
  · intro h
    rcases h with h | h <;> simp [send_telegram, strFalsy, h]

/-- Claim C8 witness: with the chat id absent, even a successful HTTP
outcome yields `None`. -/
theorem c8_send_failure_contained_witness :
    send_telegram (some "token123") none (Except.ok 200) = none :=
  (c8_send_failure_contained (some "token123") none "boom" [] ⟨0, 0, 0, 0, 0, 0⟩
    (Except.ok 200)).2.1 (Or.inr rfl)

/-- Claim C9: every screenshot a notification writes has path
`dir/YYYYMMDD_HHMMSS_label.png`, with label `slots_detected` on the
AVAILABLE transition and `none` on the NONE transition, the timestamp
being 8 digits, an underscore and 6 digits. -/
theorem c9_screenshot_naming :
    ∀ (dir : List Char) (t : PyDateTime) (token chatId : Option String)
      (net : Except String Nat) (p : List Char),
      t.year < 10000 → t.month < 100 → t.day < 100 →
      t.hour < 100 → t.minute < 100 → t.second < 100 →
      (Effect.screenshot p ∈ notifyEffects Status.AVAILABLE dir t token chatId net →
        p = dir ++ ['/'] ++ stamp t ++ ['_'] ++ "slots_detected".data ++ ".png".data) ∧
      (Effect.screenshot p ∈ notifyEffects Status.NONE dir t token chatId net →
        p = dir ++ ['/'] ++ stamp t ++ ['_'] ++ "none".data ++ ".png".data) ∧
      (stamp t).length = 15 ∧
      ((stamp t).take 8).all Char.isDigit = true ∧
      (stamp t)[8]? = some '_' ∧
      ((stamp t).drop 9).all Char.isDigit = true := by
  intro dir t token chatId net p hy hmo hd hh hmi hs
  refine ⟨?_, ?_, ?_, ?_, ?_, ?_⟩
  · intro hmem
    simp [notifyEffects, availEffects] at hmem
    simp [hmem, capturePath]
  · intro hmem
    simp [notifyEffects, noneEffects] at hmem
    simp [hmem, capturePath]
  · simp [stamp, pad2, pad4]
  · simp [stamp, pad2, pad4]
    exact ⟨isDigit_digitChar (by omega), isDigit_digitChar (by omega),
      isDigit_digitChar (by omega), isDigit_digitChar (by omega),
      isDigit_digitChar (by omega), isDigit_digitChar (by omega),
      isDigit_digitChar (by omega), isDigit_digitChar (by omega)⟩
  · simp [stamp, pad2, pad4]
  · simp [stamp, pad2, pad4]
    exact ⟨isDigit_digitChar (by omega), isDigit_digitChar (by omega),
      isDigit_digitChar (by omega), isDigit_digitChar (by omega),
      isDigit_digitChar (by omega), isDigit_digitChar (by omega)⟩

/-- Claim C9 witness. -/
theorem c9_screenshot_naming_witness :
    (stamp ⟨2026, 10, 12, 9, 30, 0⟩).length = 15 :=
  (c9_screenshot_naming "screenshots".data ⟨2026, 10, 12, 9, 30, 0⟩ none none
    (Except.ok 0) [] (by decide) (by decide) (by decide) (by decide) (by decide)
    (by decide)).2.2.1

/-- Claim C10: the time detector accepts any two digits around `:` or `h`
with no numeric range check, so texts like 99:99 and 72h classify
AVAILABLE. -/
theorem c10_no_numeric_validation :
    (∀ a b sep c d : Nat, isPyDigit a = true → isPyDigit b = true →
        isPyDigit c = true → isPyDigit d = true → sep = 58 ∨ sep = 104 →
        classify [a, b, sep, c, d] = Status.AVAILABLE) ∧
    classify (codes "99:99") = Status.AVAILABLE ∧
    classify (codes "72h") = Status.AVAILABLE := by
  refine ⟨?_, by decide, by decide⟩
  intro a b sep c d hda hdb hdc hdd hsep
  have habounds : 48 ≤ a ∧ a ≤ 57 := by simpa [isPyDigit] using hda
  have hbbounds : 48 ≤ b ∧ b ≤ 57 := by simpa [isPyDigit] using hdb
  have hcbounds : 48 ≤ c ∧ c ≤ 57 := by simpa [isPyDigit] using hdc
  have hdbounds : 48 ≤ d ∧ d ≤ 57 := by simpa [isPyDigit] using hdd
  have hnorm : normalizeText [a, b, sep, c, d] = [a, b, sep, c, d] := by
    have hla : pyLower a = a := pyLower_fix (Or.inl (by omega)) (by omega)
    have hlb : pyLower b = b := pyLower_fix (Or.inl (by omega)) (by omega)
    have hlc : pyLower c = c := pyLower_fix (Or.inl (by omega)) (by omega)
    have hld : pyLower d = d := pyLower_fix (Or.inl (by omega)) (by omega)
    have hlsep : pyLower sep = sep := by rcases hsep with rfl | rfl <;> decide
    have hsa : isPySpace a = false := isPySpace_eq_false (Or.inl (by omega))
    have hsb : isPySpace b = false := isPySpace_eq_false (Or.inl (by omega))
    have hsc : isPySpace c = false := isPySpace_eq_false (Or.inl (by omega))
    have hsd : isPySpace d = false := isPySpace_eq_false (Or.inl (by omega))
    have hssep : isPySpace sep = false := by rcases hsep with rfl | rfl <;> decide
    simp [normalizeText, collapseWs, collapseAux, hla, hlb, hlc, hld, hlsep,
      hsa, hsb, hsc, hsd, hssep]
  have hna : looks_like_no_availability [a, b, sep, c, d] = false := by
    apply noAvail_on_letterless hnorm
    intro x hx
    simp only [List.mem_cons, List.not_mem_nil, or_false] at hx
    rcases hsep with rfl | rfl <;> rcases hx with rfl | rfl | rfl | rfl | rfl <;> omega
  have hmatch : matchAtoms patHourColon none [a, b, sep, c, d] = true := by
    have hwa : isWordChar a = true := isWordChar_digit habounds
    have hwd : isWordChar d = true := isWordChar_digit hdbounds
    have hbc : b ∉ codes ":hH" := by simp [codes]; omega
    have hsepc : sep ∈ codes ":hH" := by rcases hsep with rfl | rfl <;> decide
    have m1 : matchOne Atom.wb none [a, b, sep, c, d] = [(none, [a, b, sep, c, d])] := by
      simp [matchOne, wordBoundary, hwa]
    have m2 : matchOne Atom.dig none [a, b, sep, c, d] = [(some a, [b, sep, c, d])] := by
      simp [matchOne, hda]
    have m3 : matchOne Atom.optDig (some a) [b, sep, c, d] =
        [(some a, [b, sep, c, d]), (some b, [sep, c, d])] := by
      simp [matchOne, hdb]
    have m4fail : matchOne (Atom.cls (codes ":hH")) (some a) [b, sep, c, d] = [] := by
      simp [matchOne, hbc]
    have m4 : matchOne (Atom.cls (codes ":hH")) (some b) [sep, c, d] = [(some sep, [c, d])] := by
      simp [matchOne, hsepc]
    have m5 : matchOne Atom.dig (some sep) [c, d] = [(some c, [d])] := by
      simp [matchOne, hdc]
    have m6 : matchOne Atom.dig (some c) [d] = [(some d, [])] := by
      simp [matchOne, hdd]
    have m7 : matchOne Atom.wb (some d) [] = [(some d, [])] := by
      simp [matchOne, wordBoundary, hwd]
    simp only [patHourColon, matchAtoms, m1, m2, m3, m4fail, m4, m5, m6, m7,
      List.any_cons, List.any_nil, Bool.or_false, Bool.false_or]
  have hts : looks_like_timeslot [a, b, sep, c, d] = true := by
    unfold looks_like_timeslot
    rw [hnorm]
    simp only [reSearch, hmatch, Bool.true_or, List.any_cons, List.any_nil, Bool.or_false]
  simp [classify, has_slots, hts, hna]

/-- Claim C10 witness: 99:99 spelled as codepoints. -/
theorem c10_no_numeric_validation_witness :
    classify [57, 57, 58, 57, 57] = Status.AVAILABLE :=
  c10_no_numeric_validation.1 57 57 58 57 57 (by decide) (by decide) (by decide) (by decide)
    (Or.inl rfl)

end RDV
